import Mathlib

/-!
# Marginal Value / Mechanism Coverage engine — verification

A shallow embedding of the scoring engine of the Serif demo dashboard
(`marginalValueEngine.ts`, `mechanismCatalog.ts`, `dataValue/types.ts`) and
proofs about it.

Modelling conventions:
* JavaScript `Set<string>` values are modelled by `List String`, with
  membership as the only observable (`Set.has`/`Set.add` preserve exactly
  membership); `Set.add` is `addCol`.
* JavaScript numbers that the engine produces are counts and capped sums of
  counts, modelled as `Nat`; the pipeline fields `eff_n` and `personal_pct`
  of an `EdgeResult` are modelled as `Int` (the engine only compares them).
* `String.toLowerCase`, `String.includes` and `replace(/_/g, '')` are
  modelled character-listwise (`jsToLower`, `jsIncludes`,
  `stripUnderscores`); all catalog data is ASCII.
* Record lookups (`DOSE_FAMILIES[id]`) are association-list lookups
  (`lookupRecord`); in the source every record key equals the entry's `id`.
* For the frame property (mutation of the caller's set), sets are also given
  a reference semantics: a `Heap` of set cells, `new Set(x)` allocating a
  fresh cell and `Set.add` updating a cell in place
  (`computeMarginalValueHeap`).
* Presentational fields that the engine never reads (icons, descriptions,
  example products, narrative metadata, and the purely numeric display
  fields of `EdgeResult`) are omitted from the corresponding structures.
-/

/-- A dose family (`DoseFamilyDef` in dataValue/types.ts). -/
structure DoseFamilyDef where
  id : String
  label : String
  columns : List String
  unit : String
  compleCategory : String
deriving DecidableEq

/-- A response family (`ResponseFamilyDef` in dataValue/types.ts). -/
structure ResponseFamilyDef where
  id : String
  label : String
  columns : List String
  unit : String
  compleCategory : String
  biologicalTimescale : String
deriving DecidableEq

/-- A mechanism definition (`MechanismDef` in dataValue/types.ts). -/
structure MechanismDef where
  id : String
  name : String
  doseFamily : String
  responseFamily : String
  category : String
  mechanism : String
deriving DecidableEq

/-- A candidate data source (`CandidateDataSource` in dataValue/types.ts);
purely presentational fields (`icon`, `description`, `exampleProducts`,
`frequency`, `keyEdgeNarratives`) are omitted — the engine never reads
them. -/
structure CandidateDataSource where
  id : String
  name : String
  category : String
  newDoseFamilies : List String
  newResponseFamilies : List String
  newColumns : List String
deriving DecidableEq

/-- A fitted pipeline edge (`EdgeResult` in dataValue/types.ts); the engine
reads only `title`, `source`, `target`, `eff_n` (and
`buildExistingSourceRoster` additionally reads `personal_pct`), so the other
display-only numeric and narrative fields are omitted. -/
structure EdgeResult where
  title : String
  source : String
  target : String
  eff_n : Int
  personal_pct : Int
deriving DecidableEq

/-- The tier label of a score (`MarginalValueScore.tier`). -/
inductive Tier where
  | transformative
  | high
  | moderate
  | low
deriving DecidableEq

/-- The result record of `computeMarginalValue` (`MarginalValueScore` in
dataValue/types.ts). -/
structure MarginalValueScore where
  candidateId : String
  composite : Nat
  newEdgesUnlocked : Nat
  newEdgePoints : Nat
  confoundersResolved : Nat
  confounderPoints : Nat
  signalBoostEdges : Nat
  signalBoostPoints : Nat
  tier : Tier
  unlockedMechanisms : List MechanismDef
  resolvedLatentNodes : List String
  boostedEdgeTitles : List String
deriving DecidableEq

/-- Testability classification of one mechanism (`MechanismTestability` in
dataValue/types.ts). -/
structure MechanismTestability where
  mechanism : MechanismDef
  testable : Bool
  hasDoseData : Bool
  hasResponseData : Bool
  missingDoseFamilies : List String
  missingResponseFamilies : List String
deriving DecidableEq
/-- The 22 dose families of `DOSE_FAMILIES` in mechanismCatalog.ts, as an
association list keyed by the record key (which coincides with each `id`). -/
def DOSE_FAMILIES : List (String × DoseFamilyDef) := [
  ( "running_volume", { id := "running_volume", label := "Running Volume", columns := ["daily_run_km", "run_distance_km", "distance_walking_running_km"], unit := "km", compleCategory := "C" } ),
  ( "training_duration", { id := "training_duration", label := "Training Duration", columns := ["daily_duration_min", "workout_duration_min", "ah_workout_duration_min", "exercise_time_min"], unit := "min", compleCategory := "C" } ),
  ( "zone2_volume", { id := "zone2_volume", label := "Zone 2 Volume", columns := ["daily_zone2_min", "zone2_minutes"], unit := "min", compleCategory := "C" } ),
  ( "total_distance", { id := "total_distance", label := "Total Distance", columns := ["daily_distance_km", "distance_walking_running_km"], unit := "km", compleCategory := "C" } ),
  ( "active_energy", { id := "active_energy", label := "Active Energy", columns := ["active_energy_kcal", "ah_workout_energy_kcal"], unit := "kcal", compleCategory := "C" } ),
  ( "daily_steps", { id := "daily_steps", label := "Daily Steps", columns := ["steps"], unit := "steps", compleCategory := "C" } ),
  ( "training_load", { id := "training_load", label := "Training Load (TRIMP)", columns := ["daily_trimp"], unit := "TRIMP", compleCategory := "C" } ),
  ( "workout_end_time", { id := "workout_end_time", label := "Workout End Time", columns := ["last_workout_end_hour", "latest_workout_hour"], unit := "hour", compleCategory := "C" } ),
  ( "bedtime", { id := "bedtime", label := "Bedtime", columns := ["bedtime_hour"], unit := "hour", compleCategory := "C" } ),
  ( "acwr", { id := "acwr", label := "ACWR", columns := ["acwr"], unit := "ratio", compleCategory := "L" } ),
  ( "training_consistency", { id := "training_consistency", label := "Training Consistency", columns := ["training_consistency", "training_consistency_90d"], unit := "fraction", compleCategory := "L" } ),
  ( "sleep_debt", { id := "sleep_debt", label := "Sleep Debt", columns := ["sleep_debt_14d"], unit := "hours deficit", compleCategory := "L" } ),
  ( "sleep_duration", { id := "sleep_duration", label := "Sleep Duration", columns := ["sleep_duration_hrs"], unit := "hours", compleCategory := "C" } ),
  ( "travel_load", { id := "travel_load", label := "Travel/Jet Lag Load", columns := ["travel_load"], unit := "jet lag score", compleCategory := "L" } ),
  ( "dietary_protein", { id := "dietary_protein", label := "Dietary Protein", columns := ["dietary_protein_g"], unit := "g", compleCategory := "C" } ),
  ( "dietary_energy", { id := "dietary_energy", label := "Dietary Energy", columns := ["dietary_energy_kcal"], unit := "kcal", compleCategory := "C" } ),
  ( "iron_sat_level", { id := "iron_sat_level", label := "Iron Saturation", columns := ["iron_saturation_pct_smoothed", "iron_saturation_pct_computed_smoothed"], unit := "%", compleCategory := "M" } ),
  ( "vitamin_d_level", { id := "vitamin_d_level", label := "Vitamin D Level", columns := ["vitamin_d_smoothed", "vitamin_d_raw"], unit := "ng/mL", compleCategory := "M" } ),
  ( "omega3_level", { id := "omega3_level", label := "Omega-3 Index", columns := ["omega3_index_derived", "omega3_index_smoothed"], unit := "%", compleCategory := "M" } ),
  ( "b12_level", { id := "b12_level", label := "B12 Level", columns := ["b12_smoothed", "b12_raw"], unit := "pg/mL", compleCategory := "M" } ),
  ( "homocysteine_level", { id := "homocysteine_level", label := "Homocysteine Level", columns := ["homocysteine_smoothed", "homocysteine_raw"], unit := "umol/L", compleCategory := "M" } ),
  ( "ferritin_level", { id := "ferritin_level", label := "Ferritin Level", columns := ["ferritin_smoothed", "ferritin_raw"], unit := "ng/mL", compleCategory := "M" } )]

/-- The 49 response families of `RESPONSE_FAMILIES` in mechanismCatalog.ts. -/
def RESPONSE_FAMILIES : List (String × ResponseFamilyDef) := [
  ( "iron_total", { id := "iron_total", label := "Serum Iron", columns := ["iron_total_smoothed", "iron_total_raw"], unit := "mcg/dL", compleCategory := "M", biologicalTimescale := "slow" } ),
  ( "ferritin", { id := "ferritin", label := "Ferritin", columns := ["ferritin_smoothed", "ferritin_raw"], unit := "ng/mL", compleCategory := "M", biologicalTimescale := "slow" } ),
  ( "hemoglobin", { id := "hemoglobin", label := "Hemoglobin", columns := ["hemoglobin_smoothed", "hemoglobin_raw"], unit := "g/dL", compleCategory := "M", biologicalTimescale := "slow" } ),
  ( "testosterone", { id := "testosterone", label := "Testosterone", columns := ["testosterone_smoothed", "testosterone_raw"], unit := "ng/dL", compleCategory := "M", biologicalTimescale := "slow" } ),
  ( "cortisol", { id := "cortisol", label := "Cortisol", columns := ["cortisol_smoothed", "cortisol_raw"], unit := "mcg/dL", compleCategory := "M", biologicalTimescale := "slow" } ),
  ( "triglycerides", { id := "triglycerides", label := "Triglycerides", columns := ["triglycerides_smoothed", "triglycerides_raw"], unit := "mg/dL", compleCategory := "M", biologicalTimescale := "slow" } ),
  ( "hdl", { id := "hdl", label := "HDL Cholesterol", columns := ["hdl_smoothed", "hdl_raw"], unit := "mg/dL", compleCategory := "M", biologicalTimescale := "slow" } ),
  ( "ldl", { id := "ldl", label := "LDL Cholesterol", columns := ["ldl_smoothed", "ldl_raw"], unit := "mg/dL", compleCategory := "M", biologicalTimescale := "slow" } ),
  ( "hscrp", { id := "hscrp", label := "hs-CRP", columns := ["hscrp_smoothed", "hscrp_raw"], unit := "mg/L", compleCategory := "M", biologicalTimescale := "medium" } ),
  ( "vo2peak", { id := "vo2peak", label := "VO2peak", columns := ["vo2_peak_smoothed", "vo2max_apple"], unit := "ml/min/kg", compleCategory := "M", biologicalTimescale := "slow" } ),
  ( "sleep_efficiency", { id := "sleep_efficiency", label := "Sleep Efficiency", columns := ["sleep_efficiency_pct", "sleep_efficiency_7d"], unit := "%", compleCategory := "O", biologicalTimescale := "fast" } ),
  ( "sleep_quality", { id := "sleep_quality", label := "Sleep Quality", columns := ["sleep_quality_score"], unit := "min quality", compleCategory := "O", biologicalTimescale := "fast" } ),
  ( "deep_sleep", { id := "deep_sleep", label := "Deep Sleep", columns := ["deep_sleep_min", "ah_deep_sleep_min"], unit := "min", compleCategory := "O", biologicalTimescale := "fast" } ),
  ( "sleep_duration_outcome", { id := "sleep_duration_outcome", label := "Sleep Duration", columns := ["sleep_duration_hrs", "ah_sleep_total_min"], unit := "hrs", compleCategory := "O", biologicalTimescale := "fast" } ),
  ( "hrv_daily", { id := "hrv_daily", label := "Daily HRV", columns := ["hrv_daily_mean", "sleep_hrv_ms", "hrv_ms"], unit := "ms", compleCategory := "O", biologicalTimescale := "fast" } ),
  ( "hrv_baseline", { id := "hrv_baseline", label := "HRV 7-Day Baseline", columns := ["hrv_7d_mean", "sleep_hrv_7d"], unit := "ms", compleCategory := "O", biologicalTimescale := "medium" } ),
  ( "resting_hr", { id := "resting_hr", label := "Resting Heart Rate", columns := ["resting_hr", "sleep_hr_bpm"], unit := "bpm", compleCategory := "O", biologicalTimescale := "fast" } ),
  ( "resting_hr_trend", { id := "resting_hr_trend", label := "Resting HR 7-Day Avg", columns := ["resting_hr_7d_mean", "sleep_hr_7d"], unit := "bpm", compleCategory := "O", biologicalTimescale := "medium" } ),
  ( "body_fat", { id := "body_fat", label := "Body Fat %", columns := ["body_fat_pct"], unit := "%", compleCategory := "M", biologicalTimescale := "slow" } ),
  ( "body_mass", { id := "body_mass", label := "Body Mass", columns := ["body_mass_kg"], unit := "kg", compleCategory := "M", biologicalTimescale := "slow" } ),
  ( "vitamin_d", { id := "vitamin_d", label := "Vitamin D", columns := ["vitamin_d_smoothed", "vitamin_d_raw"], unit := "ng/mL", compleCategory := "M", biologicalTimescale := "slow" } ),
  ( "wbc", { id := "wbc", label := "White Blood Cells", columns := ["wbc_smoothed", "wbc_raw"], unit := "K/uL", compleCategory := "M", biologicalTimescale := "slow" } ),
  ( "rbc", { id := "rbc", label := "Red Blood Cells", columns := ["rbc_smoothed", "rbc_raw"], unit := "M/uL", compleCategory := "M", biologicalTimescale := "slow" } ),
  ( "platelets", { id := "platelets", label := "Platelet Count", columns := ["platelets_smoothed", "platelets_raw"], unit := "K/uL", compleCategory := "M", biologicalTimescale := "slow" } ),
  ( "mcv", { id := "mcv", label := "Mean Corpuscular Volume", columns := ["mcv_smoothed", "mcv_raw"], unit := "fL", compleCategory := "M", biologicalTimescale := "slow" } ),
  ( "rdw", { id := "rdw", label := "Red Cell Distribution Width", columns := ["rdw_smoothed", "rdw_raw"], unit := "%", compleCategory := "M", biologicalTimescale := "slow" } ),
  ( "nlr", { id := "nlr", label := "Neutrophil-to-Lymphocyte Ratio", columns := ["nlr"], unit := "ratio", compleCategory := "M", biologicalTimescale := "slow" } ),
  ( "apob", { id := "apob", label := "Apolipoprotein B", columns := ["apob_smoothed", "apob_raw"], unit := "mg/dL", compleCategory := "M", biologicalTimescale := "slow" } ),
  ( "ldl_particle_number", { id := "ldl_particle_number", label := "LDL Particle Number", columns := ["ldl_particle_number_smoothed", "ldl_particle_number_raw"], unit := "nmol/L", compleCategory := "M", biologicalTimescale := "slow" } ),
  ( "non_hdl_cholesterol", { id := "non_hdl_cholesterol", label := "Non-HDL Cholesterol", columns := ["non_hdl_cholesterol_smoothed", "non_hdl_cholesterol_raw"], unit := "mg/dL", compleCategory := "M", biologicalTimescale := "slow" } ),
  ( "total_cholesterol", { id := "total_cholesterol", label := "Total Cholesterol", columns := ["total_cholesterol_smoothed", "total_cholesterol_raw"], unit := "mg/dL", compleCategory := "M", biologicalTimescale := "slow" } ),
  ( "glucose", { id := "glucose", label := "Fasting Glucose", columns := ["glucose_smoothed", "glucose_raw"], unit := "mg/dL", compleCategory := "M", biologicalTimescale := "slow" } ),
  ( "hba1c", { id := "hba1c", label := "HbA1c", columns := ["hba1c_smoothed", "hba1c_raw"], unit := "%", compleCategory := "M", biologicalTimescale := "slow" } ),
  ( "insulin", { id := "insulin", label := "Insulin", columns := ["insulin_smoothed", "insulin_raw"], unit := "uIU/mL", compleCategory := "M", biologicalTimescale := "slow" } ),
  ( "uric_acid", { id := "uric_acid", label := "Uric Acid", columns := ["uric_acid_smoothed", "uric_acid_raw"], unit := "mg/dL", compleCategory := "M", biologicalTimescale := "slow" } ),
  ( "homocysteine", { id := "homocysteine", label := "Homocysteine", columns := ["homocysteine_smoothed", "homocysteine_raw"], unit := "umol/L", compleCategory := "M", biologicalTimescale := "slow" } ),
  ( "b12", { id := "b12", label := "Vitamin B12", columns := ["b12_smoothed", "b12_raw"], unit := "pg/mL", compleCategory := "M", biologicalTimescale := "slow" } ),
  ( "folate", { id := "folate", label := "Folate", columns := ["folate_smoothed", "folate_raw"], unit := "ng/mL", compleCategory := "M", biologicalTimescale := "slow" } ),
  ( "zinc", { id := "zinc", label := "Zinc", columns := ["zinc_smoothed", "zinc_raw"], unit := "mcg/dL", compleCategory := "M", biologicalTimescale := "slow" } ),
  ( "magnesium", { id := "magnesium", label := "Magnesium (RBC)", columns := ["magnesium_rbc_smoothed", "magnesium_rbc_raw"], unit := "mg/dL", compleCategory := "M", biologicalTimescale := "slow" } ),
  ( "omega3_index", { id := "omega3_index", label := "Omega-3 Index", columns := ["omega3_index_derived", "omega3_index_smoothed"], unit := "%", compleCategory := "M", biologicalTimescale := "slow" } ),
  ( "creatinine", { id := "creatinine", label := "Creatinine", columns := ["creatinine_smoothed", "creatinine_raw"], unit := "mg/dL", compleCategory := "M", biologicalTimescale := "slow" } ),
  ( "ast", { id := "ast", label := "AST", columns := ["ast_smoothed", "ast_raw"], unit := "U/L", compleCategory := "M", biologicalTimescale := "slow" } ),
  ( "alt", { id := "alt", label := "ALT", columns := ["alt_smoothed", "alt_raw"], unit := "U/L", compleCategory := "M", biologicalTimescale := "slow" } ),
  ( "albumin", { id := "albumin", label := "Albumin", columns := ["albumin_smoothed", "albumin_raw"], unit := "g/dL", compleCategory := "M", biologicalTimescale := "slow" } ),
  ( "dhea_s", { id := "dhea_s", label := "DHEA-S", columns := ["dhea_s_smoothed", "dhea_s_raw"], unit := "mcg/dL", compleCategory := "M", biologicalTimescale := "slow" } ),
  ( "shbg", { id := "shbg", label := "Sex Hormone Binding Globulin", columns := ["shbg_smoothed", "shbg_raw"], unit := "nmol/L", compleCategory := "M", biologicalTimescale := "slow" } ),
  ( "estradiol", { id := "estradiol", label := "Estradiol", columns := ["estradiol_smoothed", "estradiol_raw"], unit := "pg/mL", compleCategory := "M", biologicalTimescale := "slow" } ),
  ( "free_t_ratio", { id := "free_t_ratio", label := "Free T / Total T Ratio", columns := ["free_t_ratio"], unit := "ratio", compleCategory := "M", biologicalTimescale := "slow" } )]

/-- The 65 mechanism definitions of `MECHANISM_CATALOG` in mechanismCatalog.ts. -/
def MECHANISM_CATALOG : List MechanismDef := [
  { id := "run_vol_iron", name := "Running Volume -> Iron", doseFamily := "running_volume", responseFamily := "iron_total", category := "metabolic", mechanism := "Foot-strike hemolysis destroys red blood cells; iron lost via hemolysis, sweat, and GI ischemia" },
  { id := "run_vol_ferritin", name := "Running Volume -> Ferritin", doseFamily := "running_volume", responseFamily := "ferritin", category := "metabolic", mechanism := "Chronic endurance running depletes iron stores through multiple loss pathways" },
  { id := "run_vol_hemoglobin", name := "Running Volume -> Hemoglobin", doseFamily := "running_volume", responseFamily := "hemoglobin", category := "metabolic", mechanism := "Iron depletion impairs hemoglobin synthesis; chronic running can cause sports anemia" },
  { id := "training_hrs_testosterone", name := "Training Hours -> Testosterone", doseFamily := "training_duration", responseFamily := "testosterone", category := "metabolic", mechanism := "Overtraining suppresses the hypothalamic-pituitary-gonadal axis" },
  { id := "training_hrs_cortisol", name := "Training Hours -> Cortisol", doseFamily := "training_duration", responseFamily := "cortisol", category := "metabolic", mechanism := "Chronic training stress elevates baseline cortisol via HPA axis activation" },
  { id := "zone2_triglycerides", name := "Zone 2 Volume -> Triglycerides", doseFamily := "zone2_volume", responseFamily := "triglycerides", category := "cardio", mechanism := "Aerobic exercise increases lipoprotein lipase activity, clearing triglycerides" },
  { id := "zone2_hdl", name := "Zone 2 Volume -> HDL", doseFamily := "zone2_volume", responseFamily := "hdl", category := "cardio", mechanism := "Regular aerobic exercise upregulates HDL production and reverse cholesterol transport" },
  { id := "zone2_ldl", name := "Zone 2 Volume -> LDL", doseFamily := "zone2_volume", responseFamily := "ldl", category := "cardio", mechanism := "Aerobic exercise can modestly reduce LDL and shift particle size" },
  { id := "acwr_hscrp", name := "ACWR -> Inflammation", doseFamily := "acwr", responseFamily := "hscrp", category := "recovery", mechanism := "Acute overreaching triggers systemic inflammation via muscle damage and oxidative stress" },
  { id := "acwr_resting_hr", name := "ACWR -> Resting HR Trend", doseFamily := "acwr", responseFamily := "resting_hr_trend", category := "recovery", mechanism := "Chronic overreaching elevates baseline sympathetic tone and resting heart rate" },
  { id := "consistency_vo2", name := "Training Consistency -> VO2peak", doseFamily := "training_consistency", responseFamily := "vo2peak", category := "cardio", mechanism := "Consistent aerobic training drives mitochondrial biogenesis and cardiac remodeling" },
  { id := "ferritin_vo2", name := "Ferritin -> VO2peak", doseFamily := "ferritin_level", responseFamily := "vo2peak", category := "metabolic", mechanism := "Iron stores limit oxygen transport capacity via hemoglobin synthesis" },
  { id := "workout_time_sleep_eff", name := "Workout Time -> Sleep Efficiency", doseFamily := "workout_end_time", responseFamily := "sleep_efficiency", category := "sleep", mechanism := "Late workouts elevate core temperature and sympathetic tone, delaying sleep onset" },
  { id := "bedtime_sleep_quality", name := "Bedtime -> Sleep Quality", doseFamily := "bedtime", responseFamily := "sleep_quality", category := "sleep", mechanism := "Later bedtimes misalign with circadian melatonin onset, reducing sleep architecture quality" },
  { id := "bedtime_deep_sleep", name := "Bedtime -> Deep Sleep", doseFamily := "bedtime", responseFamily := "deep_sleep", category := "sleep", mechanism := "Earlier bedtime captures more slow-wave sleep in the first half of the night" },
  { id := "sleep_dur_hrv", name := "Sleep Duration -> Next-Day HRV", doseFamily := "sleep_duration", responseFamily := "hrv_daily", category := "recovery", mechanism := "Adequate sleep restores parasympathetic tone; insufficient sleep elevates sympathetic activity" },
  { id := "sleep_debt_resting_hr", name := "Sleep Debt -> Resting HR", doseFamily := "sleep_debt", responseFamily := "resting_hr", category := "recovery", mechanism := "Accumulated sleep deficit elevates sympathetic tone and baseline heart rate" },
  { id := "trimp_hrv", name := "Daily Training Load -> Next-Day HRV", doseFamily := "training_load", responseFamily := "hrv_daily", category := "recovery", mechanism := "Acute training load drives autonomic nervous system fatigue measured via HRV depression" },
  { id := "trimp_resting_hr", name := "Daily Training Load -> Next-Day Resting HR", doseFamily := "training_load", responseFamily := "resting_hr", category := "recovery", mechanism := "Acute training elevates next-day resting HR via sympathetic activation and cardiac fatigue" },
  { id := "steps_sleep_eff", name := "Daily Steps -> Sleep Efficiency", doseFamily := "daily_steps", responseFamily := "sleep_efficiency", category := "sleep", mechanism := "Moderate daily activity promotes sleep; excessive activity may impair it via overarousal" },
  { id := "energy_deep_sleep", name := "Active Energy -> Deep Sleep", doseFamily := "active_energy", responseFamily := "deep_sleep", category := "sleep", mechanism := "Physical activity increases slow-wave sleep need via adenosine accumulation and thermoregulation" },
  { id := "weekly_km_hrv", name := "Weekly Volume -> HRV Baseline", doseFamily := "running_volume", responseFamily := "hrv_baseline", category := "recovery", mechanism := "Moderate volume improves vagal tone; excessive volume suppresses it via overtraining" },
  { id := "travel_sleep_eff", name := "Travel Load -> Sleep Efficiency", doseFamily := "travel_load", responseFamily := "sleep_efficiency", category := "sleep", mechanism := "Jet lag disrupts circadian rhythm, delaying melatonin onset and reducing sleep efficiency" },
  { id := "travel_hrv", name := "Travel Load -> Daily HRV", doseFamily := "travel_load", responseFamily := "hrv_daily", category := "recovery", mechanism := "Travel stress and circadian misalignment suppress parasympathetic tone measured via HRV" },
  { id := "travel_rhr", name := "Travel Load -> Resting HR", doseFamily := "travel_load", responseFamily := "resting_hr", category := "recovery", mechanism := "Circadian disruption and travel fatigue elevate sympathetic tone and resting heart rate" },
  { id := "training_vol_body_fat", name := "Training Volume -> Body Fat", doseFamily := "training_duration", responseFamily := "body_fat", category := "metabolic", mechanism := "Higher training volume increases energy expenditure and fat oxidation" },
  { id := "steps_body_mass", name := "Daily Activity -> Body Mass", doseFamily := "daily_steps", responseFamily := "body_mass", category := "metabolic", mechanism := "Higher daily activity creates energy deficit supporting weight management" },
  { id := "run_vol_rbc", name := "Running Volume -> RBC", doseFamily := "running_volume", responseFamily := "rbc", category := "metabolic", mechanism := "Endurance running causes plasma volume expansion, diluting red cell concentration" },
  { id := "run_vol_mcv", name := "Running Volume -> MCV", doseFamily := "running_volume", responseFamily := "mcv", category := "metabolic", mechanism := "Iron depletion from chronic running leads to microcytic red cells (low MCV)" },
  { id := "run_vol_rdw", name := "Running Volume -> RDW", doseFamily := "running_volume", responseFamily := "rdw", category := "metabolic", mechanism := "Mixed cell populations from iron depletion increase red cell size variation" },
  { id := "training_hrs_ast", name := "Training Hours -> AST", doseFamily := "training_duration", responseFamily := "ast", category := "metabolic", mechanism := "Skeletal muscle damage during exercise releases AST into bloodstream" },
  { id := "training_hrs_alt", name := "Training Hours -> ALT", doseFamily := "training_duration", responseFamily := "alt", category := "metabolic", mechanism := "Exercise-induced hepatic stress and muscle damage elevate ALT" },
  { id := "zone2_apob", name := "Zone 2 Volume -> ApoB", doseFamily := "zone2_volume", responseFamily := "apob", category := "cardio", mechanism := "Aerobic exercise reduces atherogenic particle count via increased LDL receptor activity" },
  { id := "zone2_non_hdl", name := "Zone 2 Volume -> Non-HDL Cholesterol", doseFamily := "zone2_volume", responseFamily := "non_hdl_cholesterol", category := "cardio", mechanism := "Aerobic exercise reduces atherogenic lipoproteins (LDL + VLDL + IDL)" },
  { id := "zone2_total_chol", name := "Zone 2 Volume -> Total Cholesterol", doseFamily := "zone2_volume", responseFamily := "total_cholesterol", category := "cardio", mechanism := "Aerobic exercise net effect on total cholesterol (HDL up, LDL down)" },
  { id := "training_hrs_glucose", name := "Training Hours -> Glucose", doseFamily := "training_duration", responseFamily := "glucose", category := "metabolic", mechanism := "Exercise upregulates GLUT4 transporters, improving glucose disposal" },
  { id := "training_hrs_hba1c", name := "Training Hours -> HbA1c", doseFamily := "training_duration", responseFamily := "hba1c", category := "metabolic", mechanism := "Chronic exercise improves long-term glycemic control through insulin sensitization" },
  { id := "training_hrs_insulin", name := "Training Hours -> Insulin", doseFamily := "training_duration", responseFamily := "insulin", category := "metabolic", mechanism := "Regular exercise improves insulin sensitivity, lowering fasting insulin levels" },
  { id := "training_hrs_uric_acid", name := "Training Hours -> Uric Acid", doseFamily := "training_duration", responseFamily := "uric_acid", category := "metabolic", mechanism := "Exercise modulates purine metabolism; moderate exercise may lower uric acid" },
  { id := "acwr_wbc", name := "ACWR -> White Blood Cells", doseFamily := "acwr", responseFamily := "wbc", category := "recovery", mechanism := "Acute overreaching triggers open-window immunosuppression with transient leukopenia" },
  { id := "acwr_nlr", name := "ACWR -> Neutrophil-Lymphocyte Ratio", doseFamily := "acwr", responseFamily := "nlr", category := "recovery", mechanism := "Training stress shifts immune balance: neutrophilia + lymphopenia = elevated NLR" },
  { id := "run_vol_zinc", name := "Running Volume -> Zinc", doseFamily := "running_volume", responseFamily := "zinc", category := "metabolic", mechanism := "Zinc lost through sweat during endurance exercise; heavy training depletes stores" },
  { id := "run_vol_magnesium", name := "Running Volume -> Magnesium", doseFamily := "running_volume", responseFamily := "magnesium", category := "metabolic", mechanism := "Magnesium lost through sweat and increased renal excretion during exercise" },
  { id := "training_hrs_dhea", name := "Training Hours -> DHEA-S", doseFamily := "training_duration", responseFamily := "dhea_s", category := "metabolic", mechanism := "Moderate exercise stimulates adrenal DHEA production; overtraining may deplete it" },
  { id := "training_hrs_shbg", name := "Training Hours -> SHBG", doseFamily := "training_duration", responseFamily := "shbg", category := "metabolic", mechanism := "Exercise increases SHBG production, affecting free testosterone availability" },
  { id := "training_hrs_homocysteine", name := "Training Hours -> Homocysteine", doseFamily := "training_duration", responseFamily := "homocysteine", category := "metabolic", mechanism := "Exercise increases B6/B12/folate demand for methylation; may lower homocysteine" },
  { id := "training_hrs_creatinine", name := "Training Hours -> Creatinine", doseFamily := "training_duration", responseFamily := "creatinine", category := "metabolic", mechanism := "Higher muscle mass and exercise increase creatine turnover and serum creatinine" },
  { id := "training_hrs_estradiol", name := "Training Hours -> Estradiol", doseFamily := "training_duration", responseFamily := "estradiol", category := "metabolic", mechanism := "Exercise affects aromatase activity and adipose tissue estrogen production" },
  { id := "training_hrs_platelets", name := "Training Hours -> Platelet Count", doseFamily := "training_duration", responseFamily := "platelets", category := "metabolic", mechanism := "Acute exercise induces thrombocytosis; chronic training may modulate baseline count" },
  { id := "training_hrs_albumin", name := "Training Hours -> Albumin", doseFamily := "training_duration", responseFamily := "albumin", category := "metabolic", mechanism := "Exercise-induced plasma volume expansion can dilute serum albumin" },
  { id := "sleep_dur_cortisol", name := "Sleep Duration -> Cortisol", doseFamily := "sleep_duration", responseFamily := "cortisol", category := "recovery", mechanism := "Sleep restriction elevates next-morning cortisol via HPA axis dysregulation" },
  { id := "sleep_dur_testosterone", name := "Sleep Duration -> Testosterone", doseFamily := "sleep_duration", responseFamily := "testosterone", category := "recovery", mechanism := "Testosterone is primarily produced during sleep; restriction suppresses production" },
  { id := "sleep_dur_glucose", name := "Sleep Duration -> Glucose", doseFamily := "sleep_duration", responseFamily := "glucose", category := "recovery", mechanism := "Chronic sleep restriction impairs insulin sensitivity and glucose tolerance" },
  { id := "sleep_dur_wbc", name := "Sleep Duration -> WBC", doseFamily := "sleep_duration", responseFamily := "wbc", category := "recovery", mechanism := "Adequate sleep supports immune cell production and healthy WBC counts" },
  { id := "iron_sat_hemoglobin", name := "Iron Saturation -> Hemoglobin", doseFamily := "iron_sat_level", responseFamily := "hemoglobin", category := "metabolic", mechanism := "Iron saturation determines iron availability for hemoglobin synthesis" },
  { id := "vitamin_d_testosterone", name := "Vitamin D -> Testosterone", doseFamily := "vitamin_d_level", responseFamily := "testosterone", category := "metabolic", mechanism := "Vitamin D receptors in Leydig cells; deficiency is associated with lower testosterone" },
  { id := "omega3_hscrp", name := "Omega-3 Index -> hsCRP", doseFamily := "omega3_level", responseFamily := "hscrp", category := "metabolic", mechanism := "EPA/DHA compete with arachidonic acid, reducing pro-inflammatory eicosanoid production" },
  { id := "ferritin_rbc", name := "Ferritin -> RBC", doseFamily := "ferritin_level", responseFamily := "rbc", category := "metabolic", mechanism := "Iron stores support erythropoiesis; depletion impairs red blood cell production" },
  { id := "ferritin_hemoglobin", name := "Ferritin -> Hemoglobin", doseFamily := "ferritin_level", responseFamily := "hemoglobin", category := "metabolic", mechanism := "Low ferritin limits iron availability for hemoglobin synthesis" },
  { id := "b12_homocysteine", name := "B12 -> Homocysteine", doseFamily := "b12_level", responseFamily := "homocysteine", category := "metabolic", mechanism := "B12 is a cofactor for methionine synthase which clears homocysteine" },
  { id := "homocysteine_hscrp", name := "Homocysteine -> hsCRP", doseFamily := "homocysteine_level", responseFamily := "hscrp", category := "metabolic", mechanism := "Elevated homocysteine promotes endothelial dysfunction and vascular inflammation" },
  { id := "protein_body_fat", name := "Dietary Protein -> Body Fat", doseFamily := "dietary_protein", responseFamily := "body_fat", category := "metabolic", mechanism := "Higher protein intake increases thermic effect and satiety, supporting fat loss" },
  { id := "energy_body_mass", name := "Dietary Energy -> Body Mass", doseFamily := "dietary_energy", responseFamily := "body_mass", category := "metabolic", mechanism := "Chronic energy surplus/deficit drives body mass changes via energy balance" },
  { id := "travel_nlr", name := "Travel Load -> NLR", doseFamily := "travel_load", responseFamily := "nlr", category := "recovery", mechanism := "Travel stress and circadian disruption shift immune balance toward neutrophilia" },
  { id := "travel_deep_sleep", name := "Travel Load -> Deep Sleep", doseFamily := "travel_load", responseFamily := "deep_sleep", category := "sleep", mechanism := "Jet lag disrupts slow-wave sleep architecture via circadian misalignment" }]

/-- The 8 latent confounder nodes of `LATENT_NODES` in mechanismCatalog.ts. -/
def LATENT_NODES : List String :=
  ["sweat_iron_loss", "gi_iron_loss", "lipoprotein_lipase", "reverse_cholesterol_transport", "core_temperature", "energy_expenditure", "leptin", "insulin_sensitivity"]

/-- Association-list lookup modelling a TypeScript `Record<string, α>`
indexed access (`table[key]`, `undefined` becoming `none`). -/
def lookupRecord {α : Type} (table : List (String × α)) (key : String) : Option α :=
  (table.find? (fun e => e.1 == key)).map (fun e => e.2)

/-- Model of `Set.add` on the list model of a JS string set: adding an element that is
already present leaves the set unchanged. -/
def addCol (s : List String) (c : String) : List String :=
  if s.elem c then s else c :: s

/-- Function `hasDoseData` of marginalValueEngine.ts: a dose family id has data when
the family exists and at least one of its columns is available. -/
def hasDoseData (doseFamilyId : String) (availableColumns : List String) : Bool :=
  match lookupRecord DOSE_FAMILIES doseFamilyId with
  | none => false
  | some fam => fam.columns.any (fun c => availableColumns.elem c)

/-- Function `hasResponseData` of marginalValueEngine.ts. -/
def hasResponseData (responseFamilyId : String) (availableColumns : List String) : Bool :=
  match lookupRecord RESPONSE_FAMILIES responseFamilyId with
  | none => false
  | some fam => fam.columns.any (fun c => availableColumns.elem c)

/-- The loop body of `getCurrentlyTestableEdges`: the `MechanismTestability`
entry built for one mechanism. -/
def mechEntry (availableColumns : List String) (mech : MechanismDef) : MechanismTestability :=
  let doseOk := hasDoseData mech.doseFamily availableColumns
  let responseOk := hasResponseData mech.responseFamily availableColumns
  { mechanism := mech
    testable := doseOk && responseOk
    hasDoseData := doseOk
    hasResponseData := responseOk
    missingDoseFamilies := if doseOk then [] else [mech.doseFamily]
    missingResponseFamilies := if responseOk then [] else [mech.responseFamily] }

/-- Function `getCurrentlyTestableEdges` of marginalValueEngine.ts: the loop that
pushes each entry onto the `testable` or the `untestable` list. -/
def getCurrentlyTestableEdges (availableColumns : List String) :
    List MechanismTestability × List MechanismTestability :=
  let entries := MECHANISM_CATALOG.map (mechEntry availableColumns)
  (entries.filter (fun e => e.testable), entries.filter (fun e => !e.testable))

/-- Columns of a dose family id, `[]` when the id has no entry (the
`if (fam)` guard of marginalValueEngine.ts). -/
def doseFamilyColumns (dfId : String) : List String :=
  match lookupRecord DOSE_FAMILIES dfId with
  | some fam => fam.columns
  | none => []

/-- Columns of a response family id, `[]` when the id has no entry. -/
def responseFamilyColumns (rfId : String) : List String :=
  match lookupRecord RESPONSE_FAMILIES rfId with
  | some fam => fam.columns
  | none => []

/-- The augmented column set of `computeMarginalValue`: a copy of the
available columns, plus the candidate's `newColumns`, plus the columns of
each listed dose/response family that exists in the catalog. -/
def augmentedColumnsOf (candidate : CandidateDataSource)
    (availableColumns : List String) : List String :=
  let a1 := candidate.newColumns.foldl addCol availableColumns
  let a2 := candidate.newDoseFamilies.foldl
    (fun s dfId => (doseFamilyColumns dfId).foldl addCol s) a1
  candidate.newResponseFamilies.foldl
    (fun s rfId => (responseFamilyColumns rfId).foldl addCol s) a2

/-- The filter predicate used twice in `computeMarginalValue`:
`hasDoseData(m.doseFamily, cols) && hasResponseData(m.responseFamily, cols)`. -/
def mechTestable (cols : List String) (m : MechanismDef) : Bool :=
  hasDoseData m.doseFamily cols && hasResponseData m.responseFamily cols

/-- The `currentTestable` id set of `computeMarginalValue`. -/
def currentTestableIds (availableColumns : List String) : List String :=
  (MECHANISM_CATALOG.filter (mechTestable availableColumns)).map (fun m => m.id)

/-- The `newlyUnlocked` list of `computeMarginalValue`: mechanisms testable
under the augmented columns whose id is not currently testable. -/
def newlyUnlockedOf (availableColumns augmentedColumns : List String) : List MechanismDef :=
  (MECHANISM_CATALOG.filter (mechTestable augmentedColumns)).filter
    (fun m => !((currentTestableIds availableColumns).elem m.id))

/-- Model of `String.toLowerCase` (ASCII, character by character). -/
def jsToLower (s : String) : String :=
  String.mk (s.data.map Char.toLower)

/-- Model of `String.replace` with pattern underscore: drop every underscore. -/
def stripUnderscores (s : String) : String :=
  String.mk (s.data.filter (fun c => c != '_'))

/-- Character-list prefix test (used to model `String.includes`). -/
def listStartsWith : List Char → List Char → Bool
  | [], _ => true
  | _ :: _, [] => false
  | a :: as, b :: bs => a == b && listStartsWith as bs

/-- Character-list substring test: does `sub` occur contiguously in the
second list? -/
def listHasSub (sub : List Char) : List Char → Bool
  | [] => listStartsWith sub []
  | b :: bs => listStartsWith sub (b :: bs) || listHasSub sub bs

/-- Model of `s.includes(sub)` of JavaScript. -/
def jsIncludes (s sub : String) : Bool :=
  listHasSub sub.data s.data

/-- The `resolves` predicate of `computeMarginalValue`: some new column is a
substring proxy for the latent node. -/
def resolvesLatent (candidate : CandidateDataSource) (latent : String) : Bool :=
  candidate.newColumns.any (fun col =>
    let colLower := jsToLower col
    let latentLower := stripUnderscores (jsToLower latent)
    jsIncludes colLower latentLower || jsIncludes latentLower (stripUnderscores colLower))

/-- The guarded `push` used by the special cases of `computeMarginalValue`:
append the node unless it is already present. -/
def pushIfAbsent (l : List String) (x : String) : List String :=
  if l.elem x then l else l ++ [x]

/-- The `resolvedLatentNodes` list of `computeMarginalValue`: the heuristic
pass over `LATENT_NODES` followed by the three hardcoded special cases. -/
def resolvedLatentNodesOf (candidate : CandidateDataSource) : List String :=
  let base := LATENT_NODES.filter (resolvesLatent candidate)
  let r1 := if candidate.id == "body_temperature" then
    pushIfAbsent base "core_temperature" else base
  let r2 := if candidate.id == "mood_stress" then
    pushIfAbsent r1 "energy_expenditure" else r1
  if candidate.id == "genetic_data" then
    pushIfAbsent (pushIfAbsent r2 "insulin_sensitivity") "lipoprotein_lipase" else r2

/-- The `boostedEdgeTitles` list of `computeMarginalValue`: the eight
hardcoded per-candidate-id push loops, in source order. -/
def boostedEdgeTitlesOf (candidate : CandidateDataSource)
    (edgeResults : List EdgeResult) : List String :=
  (if candidate.id == "monthly_labs" then
    (edgeResults.filter (fun e => e.eff_n < 20)).map (fun e => e.title) else [])
  ++ (if candidate.id == "dedicated_hrv" then
    (edgeResults.filter (fun e =>
      jsIncludes e.target "hrv" || jsIncludes e.source "hrv")).map (fun e => e.title) else [])
  ++ (if candidate.id == "cgm" then
    (edgeResults.filter (fun e =>
      jsIncludes e.target "glucose" || jsIncludes e.source "glucose" ||
      jsIncludes e.target "insulin" || jsIncludes e.target "hba1c")).map (fun e => e.title) else [])
  ++ (if candidate.id == "nutrition" then
    (edgeResults.filter (fun e =>
      jsIncludes e.source "dietary" || jsIncludes e.source "protein")).map (fun e => e.title) else [])
  ++ (if candidate.id == "blood_pressure" then
    (edgeResults.filter (fun e =>
      jsIncludes e.target "resting_hr" || jsIncludes e.target "hr_7d" ||
      jsIncludes (jsToLower e.title) "cardio")).map (fun e => e.title) else [])
  ++ (if candidate.id == "mood_stress" then
    (edgeResults.filter (fun e =>
      jsIncludes e.target "cortisol" || jsIncludes e.target "testosterone" ||
      jsIncludes (jsToLower e.title) "sleep")).map (fun e => e.title) else [])
  ++ (if candidate.id == "respiratory_rate" then
    (edgeResults.filter (fun e =>
      jsIncludes e.target "hrv" || jsIncludes e.target "sleep")).map (fun e => e.title) else [])
  ++ (if candidate.id == "body_temperature" then
    (edgeResults.filter (fun e =>
      jsIncludes e.target "sleep" || jsIncludes (jsToLower e.title) "sleep")).map (fun e => e.title) else [])

/-- The tier cascade at the end of `computeMarginalValue`. -/
def tierOf (composite : Nat) : Tier :=
  if 70 ≤ composite then Tier.transformative
  else if 45 ≤ composite then Tier.high
  else if 20 ≤ composite then Tier.moderate
  else Tier.low

/-- Everything `computeMarginalValue` does after building the augmented
column set, as a function of the two sets it reads. -/
def scoreFromSets (candidate : CandidateDataSource)
    (availableColumns augmentedColumns : List String)
    (edgeResults : List EdgeResult) : MarginalValueScore :=
  let newlyUnlocked := newlyUnlockedOf availableColumns augmentedColumns
  let newEdgesUnlocked := newlyUnlocked.length
  let newEdgePoints := min 40 (newEdgesUnlocked * 15)
  let resolvedLatentNodes := resolvedLatentNodesOf candidate
  let confoundersResolved := resolvedLatentNodes.length
  let confounderPoints := min 30 (confoundersResolved * 15)
  let boostedEdgeTitles := boostedEdgeTitlesOf candidate edgeResults
  let signalBoostEdges := boostedEdgeTitles.length
  let signalBoostPoints := min 30 (signalBoostEdges * 5)
  let composite := min 100 (newEdgePoints + confounderPoints + signalBoostPoints)
  { candidateId := candidate.id
    composite := composite
    newEdgesUnlocked := newEdgesUnlocked
    newEdgePoints := newEdgePoints
    confoundersResolved := confoundersResolved
    confounderPoints := confounderPoints
    signalBoostEdges := signalBoostEdges
    signalBoostPoints := signalBoostPoints
    tier := tierOf composite
    unlockedMechanisms := newlyUnlocked
    resolvedLatentNodes := resolvedLatentNodes
    boostedEdgeTitles := boostedEdgeTitles }

/-- Function `computeMarginalValue` of marginalValueEngine.ts. -/
def computeMarginalValue (candidate : CandidateDataSource)
    (availableColumns : List String) (edgeResults : List EdgeResult) : MarginalValueScore :=
  scoreFromSets candidate availableColumns
    (augmentedColumnsOf candidate availableColumns) edgeResults

/-- One entry of the array returned by `rankCandidates`. -/
structure RankedCandidate where
  candidate : CandidateDataSource
  score : MarginalValueScore
deriving DecidableEq

/-- The order established by the comparator
`(a, b) => b.score.composite - a.score.composite`: composite scores are
non-increasing along the sorted list. -/
def rankedLE (a b : RankedCandidate) : Prop :=
  b.score.composite ≤ a.score.composite

instance : DecidableRel rankedLE :=
  fun a b => Nat.decLe b.score.composite a.score.composite

instance : IsTotal RankedCandidate rankedLE :=
  ⟨fun a b => Nat.le_total b.score.composite a.score.composite⟩

instance : IsTrans RankedCandidate rankedLE :=
  ⟨fun _ _ _ h1 h2 => Nat.le_trans h2 h1⟩

/-- Modelled from the spec: the literal `CANDIDATE_DATA_SOURCES` array
(candidateDataSources.ts) is not among the provided sources — only its type
and its consumers are. The spec says only that the engine "ranks candidate
new data sources", so the list is modelled as one candidate per id that
marginalValueEngine.ts special-cases; every ranking theorem below is proved
for an arbitrary candidate list and instantiated at this one. -/
def CANDIDATE_DATA_SOURCES : List CandidateDataSource :=
  ["monthly_labs", "dedicated_hrv", "cgm", "nutrition", "blood_pressure",
   "mood_stress", "respiratory_rate", "body_temperature", "genetic_data"].map
    (fun i => { id := i, name := i, category := "",
                newDoseFamilies := [], newResponseFamilies := [], newColumns := [] })

/-- Function `rankCandidates` over an explicit candidate list: map each candidate to
its score, then sort by composite descending (JS `Array.sort` with a
consistent comparator is modelled by a comparison sort that returns a
sorted permutation). -/
def rankCandidatesOf (candidates : List CandidateDataSource)
    (availableColumns : List String) (edgeResults : List EdgeResult) : List RankedCandidate :=
  List.insertionSort rankedLE (candidates.map
    (fun c => { candidate := c, score := computeMarginalValue c availableColumns edgeResults }))

/-- Function `rankCandidates` of marginalValueEngine.ts. -/
def rankCandidates (availableColumns : List String)
    (edgeResults : List EdgeResult) : List RankedCandidate :=
  rankCandidatesOf CANDIDATE_DATA_SOURCES availableColumns edgeResults

/-- A heap of JS `Set<string>` cells, for the frame/aliasing claims. -/
abbrev Heap := List (List String)

/-- Read a set cell. -/
def heapGet (h : Heap) (r : Nat) : List String :=
  h.getD r []

/-- Mutation `set.add(col)` performed in place on the cell `r`. -/
def heapAddCol (r : Nat) (h : Heap) (col : String) : Heap :=
  h.set r (addCol (heapGet h r) col)

/-- Function `computeMarginalValue` with the two sets given reference semantics:
`availableColumns` is the cell `availRef` of the heap; the function first
allocates a fresh cell for `new Set(availableColumns)`, performs every
`add` on that fresh cell, and then computes the (pure) score from the two
cells.  Returns the score together with the final heap. -/
def computeMarginalValueHeap (candidate : CandidateDataSource) (h : Heap)
    (availRef : Nat) (edgeResults : List EdgeResult) : MarginalValueScore × Heap :=
  let augRef := h.length
  let h1 := h ++ [heapGet h availRef]
  let h2 := candidate.newColumns.foldl (heapAddCol augRef) h1
  let h3 := candidate.newDoseFamilies.foldl
    (fun hh dfId => (doseFamilyColumns dfId).foldl (heapAddCol augRef) hh) h2
  let h4 := candidate.newResponseFamilies.foldl
    (fun hh rfId => (responseFamilyColumns rfId).foldl (heapAddCol augRef) hh) h3
  (scoreFromSets candidate (heapGet h4 availRef) (heapGet h4 augRef) edgeResults, h4)

/-- Function `getCurrentlyTestableEdges` with reference semantics: the function only
reads the set (`Set.has`), so the heap passes through unchanged. -/
def getCurrentlyTestableEdgesHeap (h : Heap) (availRef : Nat) :
    (List MechanismTestability × List MechanismTestability) × Heap :=
  (getCurrentlyTestableEdges (heapGet h availRef), h)

-- ── Shared helper lemmas ─────────────────────────────────────────

theorem elem_eq_true_iff {a : String} {l : List String} : l.elem a = true ↔ a ∈ l :=
  List.elem_iff

theorem mem_addCol {s : List String} {c x : String} :
    x ∈ addCol s c ↔ x ∈ s ∨ x = c := by
  unfold addCol
  split
  · rename_i h
    have hc : c ∈ s := elem_eq_true_iff.1 h
    constructor
    · exact fun hx => Or.inl hx
    · rintro (hx | rfl)
      · exact hx
      · exact hc
  · simp [List.mem_cons, or_comm]

theorem mem_foldl_addCol {l : List String} {s : List String} {x : String} :
    x ∈ l.foldl addCol s ↔ x ∈ s ∨ x ∈ l := by
  induction l generalizing s with
  | nil => simp
  | cons a t ih =>
    simp only [List.foldl_cons, ih, mem_addCol, List.mem_cons]
    tauto

theorem mem_foldl_famCols {β : Type} {colsOf : β → List String}
    {fams : List β} {s : List String} {x : String} :
    x ∈ fams.foldl (fun s fid => (colsOf fid).foldl addCol s) s ↔
      x ∈ s ∨ ∃ fid ∈ fams, x ∈ colsOf fid := by
  induction fams generalizing s with
  | nil => simp
  | cons a t ih =>
    simp only [List.foldl_cons, ih, mem_foldl_addCol, List.mem_cons]
    constructor
    · rintro ((h | h) | ⟨fid, hf, hx⟩)
      · exact Or.inl h
      · exact Or.inr ⟨a, Or.inl rfl, h⟩
      · exact Or.inr ⟨fid, Or.inr hf, hx⟩
    · rintro (h | ⟨fid, (rfl | hf), hx⟩)
      · exact Or.inl (Or.inl h)
      · exact Or.inl (Or.inr hx)
      · exact Or.inr ⟨fid, hf, hx⟩

theorem mem_doseFamilyColumns {fid x : String} :
    x ∈ doseFamilyColumns fid ↔
      ∃ fam, lookupRecord DOSE_FAMILIES fid = some fam ∧ x ∈ fam.columns := by
  unfold doseFamilyColumns
  cases h : lookupRecord DOSE_FAMILIES fid <;> simp [h]

theorem mem_responseFamilyColumns {fid x : String} :
    x ∈ responseFamilyColumns fid ↔
      ∃ fam, lookupRecord RESPONSE_FAMILIES fid = some fam ∧ x ∈ fam.columns := by
  unfold responseFamilyColumns
  cases h : lookupRecord RESPONSE_FAMILIES fid <;> simp [h]

theorem mem_augmentedColumnsOf {c : CandidateDataSource} {cols : List String} {x : String} :
    x ∈ augmentedColumnsOf c cols ↔
      x ∈ cols ∨ x ∈ c.newColumns ∨
      (∃ fid ∈ c.newDoseFamilies,
        ∃ fam, lookupRecord DOSE_FAMILIES fid = some fam ∧ x ∈ fam.columns) ∨
      (∃ fid ∈ c.newResponseFamilies,
        ∃ fam, lookupRecord RESPONSE_FAMILIES fid = some fam ∧ x ∈ fam.columns) := by
  unfold augmentedColumnsOf
  simp only [mem_foldl_famCols, mem_foldl_addCol, mem_doseFamilyColumns,
    mem_responseFamilyColumns]
  aesop

theorem tierOf_cases (n : Nat) :
    (tierOf n = Tier.transformative ↔ 70 ≤ n) ∧
    (tierOf n = Tier.high ↔ 45 ≤ n ∧ n < 70) ∧
    (tierOf n = Tier.moderate ↔ 20 ≤ n ∧ n < 45) ∧
    (tierOf n = Tier.low ↔ n < 20) := by
  unfold tierOf
  split_ifs with h1 h2 h3 <;> refine ⟨?_, ?_, ?_, ?_⟩ <;> simp_all <;> omega

-- ── C1: composite score arithmetic ───────────────────────────────

/-- C1: the composite score is `min 100 (newEdgePoints + confounderPoints +
signalBoostPoints)` with `newEdgePoints = min 40 (15 * newEdgesUnlocked)`,
`confounderPoints = min 30 (15 * confoundersResolved)` and
`signalBoostPoints = min 30 (5 * signalBoostEdges)`; consequently the
composite always lies between 0 and 100. -/
theorem computeMarginalValue_composite_caps (c : CandidateDataSource)
    (cols : List String) (es : List EdgeResult) :
    (computeMarginalValue c cols es).newEdgePoints =
      min 40 (15 * (computeMarginalValue c cols es).newEdgesUnlocked) ∧
    (computeMarginalValue c cols es).confounderPoints =
      min 30 (15 * (computeMarginalValue c cols es).confoundersResolved) ∧
    (computeMarginalValue c cols es).signalBoostPoints =
      min 30 (5 * (computeMarginalValue c cols es).signalBoostEdges) ∧
    (computeMarginalValue c cols es).composite =
      min 100 ((computeMarginalValue c cols es).newEdgePoints +
        (computeMarginalValue c cols es).confounderPoints +
        (computeMarginalValue c cols es).signalBoostPoints) ∧
    0 ≤ (computeMarginalValue c cols es).composite ∧
    (computeMarginalValue c cols es).composite ≤ 100 := by
  refine ⟨?_, ?_, ?_, ?_, Nat.zero_le _, ?_⟩ <;>
    simp [computeMarginalValue, scoreFromSets, Nat.mul_comm]

-- ── C8: tier is a function of the composite alone ────────────────

/-- C8: the tier label is determined by the composite score alone:
`transformative` iff `composite ≥ 70`, `high` iff `45 ≤ composite < 70`,
`moderate` iff `20 ≤ composite < 45`, `low` iff `composite < 20`. -/
theorem computeMarginalValue_tier_spec (c : CandidateDataSource)
    (cols : List String) (es : List EdgeResult) :
    (computeMarginalValue c cols es).tier =
      tierOf (computeMarginalValue c cols es).composite ∧
    ((computeMarginalValue c cols es).tier = Tier.transformative ↔
      70 ≤ (computeMarginalValue c cols es).composite) ∧
    ((computeMarginalValue c cols es).tier = Tier.high ↔
      45 ≤ (computeMarginalValue c cols es).composite ∧
      (computeMarginalValue c cols es).composite < 70) ∧
    ((computeMarginalValue c cols es).tier = Tier.moderate ↔
      20 ≤ (computeMarginalValue c cols es).composite ∧
      (computeMarginalValue c cols es).composite < 45) ∧
    ((computeMarginalValue c cols es).tier = Tier.low ↔
      (computeMarginalValue c cols es).composite < 20) := by
  have h : (computeMarginalValue c cols es).tier =
      tierOf (computeMarginalValue c cols es).composite := by
    simp [computeMarginalValue, scoreFromSets]
  obtain ⟨h1, h2, h3, h4⟩ := tierOf_cases (computeMarginalValue c cols es).composite
  exact ⟨h, h ▸ h1, h ▸ h2, h ▸ h3, h ▸ h4⟩

-- ── C2: testability classification ───────────────────────────────

/-- C2: a mechanism is classified testable exactly when its dose family and
its response family each have at least one available column, and every
catalog mechanism lands in exactly one of the two returned lists (their
concatenation is a permutation of the catalog's entries, and each list is
characterised by the `testable` flag). -/
theorem getCurrentlyTestableEdges_spec (cols : List String) :
    (∀ m ∈ MECHANISM_CATALOG, (mechEntry cols m).testable
        = (hasDoseData m.doseFamily cols && hasResponseData m.responseFamily cols)) ∧
    List.Perm ((getCurrentlyTestableEdges cols).1 ++ (getCurrentlyTestableEdges cols).2)
      (MECHANISM_CATALOG.map (mechEntry cols)) ∧
    (∀ e, e ∈ (getCurrentlyTestableEdges cols).1 ↔
      e ∈ MECHANISM_CATALOG.map (mechEntry cols) ∧ e.testable = true) ∧
    (∀ e, e ∈ (getCurrentlyTestableEdges cols).2 ↔
      e ∈ MECHANISM_CATALOG.map (mechEntry cols) ∧ e.testable = false) := by
  have hfst : (getCurrentlyTestableEdges cols).1
      = (MECHANISM_CATALOG.map (mechEntry cols)).filter (fun e => e.testable) := rfl
  have hsnd : (getCurrentlyTestableEdges cols).2
      = (MECHANISM_CATALOG.map (mechEntry cols)).filter (fun e => !e.testable) := rfl
  refine ⟨fun m _ => rfl, ?_, ?_, ?_⟩
  · rw [hfst, hsnd]
    exact List.filter_append_perm _ _
  · intro e
    rw [hfst, List.mem_filter]
  · intro e
    rw [hsnd, List.mem_filter, Bool.not_eq_true']

/-- The first catalog mechanism, used as a concrete input by witnesses. -/
def runVolIronMech : MechanismDef :=
  { id := "run_vol_iron"
    name := "Running Volume -> Iron"
    doseFamily := "running_volume"
    responseFamily := "iron_total"
    category := "metabolic"
    mechanism := "Foot-strike hemolysis destroys red blood cells; iron lost via hemolysis, sweat, and GI ischemia" }

/-- Witness for C2 at a concrete mechanism and the empty column set. -/
theorem getCurrentlyTestableEdges_spec_witness :
    (mechEntry [] runVolIronMech).testable
      = (hasDoseData "running_volume" [] && hasResponseData "iron_total" []) :=
  (getCurrentlyTestableEdges_spec []).1 _ (by decide)

-- ── C9: testability is monotone in the column set ────────────────

theorem hasDoseData_mono {A B : List String} (hsub : ∀ x, x ∈ A → x ∈ B)
    (fid : String) : hasDoseData fid A = true → hasDoseData fid B = true := by
  unfold hasDoseData
  cases h : lookupRecord DOSE_FAMILIES fid
  · simp
  · simp only [List.any_eq_true]
    rintro ⟨col, hc, he⟩
    exact ⟨col, hc, elem_eq_true_iff.2 (hsub _ (elem_eq_true_iff.1 he))⟩

theorem hasResponseData_mono {A B : List String} (hsub : ∀ x, x ∈ A → x ∈ B)
    (fid : String) : hasResponseData fid A = true → hasResponseData fid B = true := by
  unfold hasResponseData
  cases h : lookupRecord RESPONSE_FAMILIES fid
  · simp
  · simp only [List.any_eq_true]
    rintro ⟨col, hc, he⟩
    exact ⟨col, hc, elem_eq_true_iff.2 (hsub _ (elem_eq_true_iff.1 he))⟩

/-- C9: testability is monotone in the available-column set; in particular
the augmented set of `computeMarginalValue` keeps every currently testable
mechanism testable, and `newEdgesUnlocked` is never negative. -/
theorem mechTestable_monotone :
    (∀ A B : List String, (∀ x, x ∈ A → x ∈ B) →
      ∀ m : MechanismDef, mechTestable A m = true → mechTestable B m = true) ∧
    (∀ (c : CandidateDataSource) (cols : List String) (m : MechanismDef),
      mechTestable cols m = true → mechTestable (augmentedColumnsOf c cols) m = true) ∧
    (∀ (c : CandidateDataSource) (cols : List String) (m : MechanismDef),
      m ∈ MECHANISM_CATALOG.filter (mechTestable cols) →
      m ∈ MECHANISM_CATALOG.filter (mechTestable (augmentedColumnsOf c cols))) ∧
    (∀ (c : CandidateDataSource) (cols : List String) (es : List EdgeResult),
      0 ≤ (computeMarginalValue c cols es).newEdgesUnlocked) := by
  have hmono : ∀ A B : List String, (∀ x, x ∈ A → x ∈ B) →
      ∀ m : MechanismDef, mechTestable A m = true → mechTestable B m = true := by
    intro A B hsub m hm
    unfold mechTestable at hm ⊢
    rw [Bool.and_eq_true] at hm ⊢
    exact ⟨hasDoseData_mono hsub _ hm.1, hasResponseData_mono hsub _ hm.2⟩
  have hsubaug : ∀ (c : CandidateDataSource) (cols : List String) (x : String),
      x ∈ cols → x ∈ augmentedColumnsOf c cols :=
    fun c cols x hx => mem_augmentedColumnsOf.2 (Or.inl hx)
  refine ⟨hmono, fun c cols m hm => hmono _ _ (hsubaug c cols) m hm, ?_, ?_⟩
  · intro c cols m hm
    rw [List.mem_filter] at hm ⊢
    exact ⟨hm.1, hmono _ _ (hsubaug c cols) m hm.2⟩
  · intro c cols es
    exact Nat.zero_le _

/-- Witness for C9: a mechanism testable under the two columns of its
families stays testable when a column is added, and a concrete
`newEdgesUnlocked` is non-negative. -/
theorem mechTestable_monotone_witness :
    mechTestable ["extra_col", "daily_run_km", "iron_total_smoothed"] runVolIronMech = true :=
  mechTestable_monotone.1 ["daily_run_km", "iron_total_smoothed"]
    ["extra_col", "daily_run_km", "iron_total_smoothed"]
    (fun _ hx => List.mem_cons_of_mem _ hx) _ (by decide)

-- ── C10: unknown family ids are handled totally ──────────────────

theorem foldl_skip_unknown {β : Type} (p : β → Bool) (g : β → List String)
    (hg : ∀ b, p b = false → g b = []) :
    ∀ (l : List β) (s : List String),
      l.foldl (fun s b => (g b).foldl addCol s) s
        = (l.filter p).foldl (fun s b => (g b).foldl addCol s) s := by
  intro l
  induction l with
  | nil => intro s; rfl
  | cons a t ih =>
    intro s
    by_cases h : p a = true
    · simp only [List.foldl_cons, List.filter_cons, h, if_true, ih]
    · have h0 : p a = false := by simpa using h
      simp only [List.foldl_cons, List.filter_cons, h0, Bool.false_eq_true, if_false,
        hg a h0, List.foldl_nil, ih]

/-- C10: lookups of unknown family ids never fail: `hasDoseData` /
`hasResponseData` return `false` for an id with no catalog entry (so such a
mechanism is classified untestable), and unknown ids in a candidate's
`newDoseFamilies` / `newResponseFamilies` contribute nothing to the
augmented column set. -/
theorem unknownIds_safe :
    (∀ (fid : String) (cols : List String),
      lookupRecord DOSE_FAMILIES fid = none → hasDoseData fid cols = false) ∧
    (∀ (fid : String) (cols : List String),
      lookupRecord RESPONSE_FAMILIES fid = none → hasResponseData fid cols = false) ∧
    (∀ (m : MechanismDef) (cols : List String),
      (lookupRecord DOSE_FAMILIES m.doseFamily = none ∨
        lookupRecord RESPONSE_FAMILIES m.responseFamily = none) →
      (mechEntry cols m).testable = false) ∧
    (∀ (c : CandidateDataSource) (cols : List String),
      augmentedColumnsOf c cols =
        augmentedColumnsOf
          { c with
            newDoseFamilies := c.newDoseFamilies.filter
              (fun fid => (lookupRecord DOSE_FAMILIES fid).isSome),
            newResponseFamilies := c.newResponseFamilies.filter
              (fun fid => (lookupRecord RESPONSE_FAMILIES fid).isSome) } cols) := by
  have hdose : ∀ (fid : String) (cols : List String),
      lookupRecord DOSE_FAMILIES fid = none → hasDoseData fid cols = false := by
    intro fid cols h
    unfold hasDoseData
    rw [h]
  have hresp : ∀ (fid : String) (cols : List String),
      lookupRecord RESPONSE_FAMILIES fid = none → hasResponseData fid cols = false := by
    intro fid cols h
    unfold hasResponseData
    rw [h]
  refine ⟨hdose, hresp, ?_, ?_⟩
  · intro m cols h
    have ht : (mechEntry cols m).testable
        = (hasDoseData m.doseFamily cols && hasResponseData m.responseFamily cols) := rfl
    rcases h with h | h
    · rw [ht, hdose _ _ h, Bool.false_and]
    · rw [ht, hresp _ _ h, Bool.and_false]
  · intro c cols
    unfold augmentedColumnsOf
    have hgd : ∀ fid, (lookupRecord DOSE_FAMILIES fid).isSome = false →
        doseFamilyColumns fid = [] := by
      intro fid h
      unfold doseFamilyColumns
      cases hl : lookupRecord DOSE_FAMILIES fid
      · rfl
      · rw [hl] at h
        cases h
    have hgr : ∀ fid, (lookupRecord RESPONSE_FAMILIES fid).isSome = false →
        responseFamilyColumns fid = [] := by
      intro fid h
      unfold responseFamilyColumns
      cases hl : lookupRecord RESPONSE_FAMILIES fid
      · rfl
      · rw [hl] at h
        cases h
    simp only
    rw [foldl_skip_unknown _ doseFamilyColumns hgd c.newDoseFamilies,
      foldl_skip_unknown _ responseFamilyColumns hgr c.newResponseFamilies]

/-- A mechanism whose dose family id has no catalog entry, used by the
witness for C10. -/
def ghostMech : MechanismDef :=
  { id := "ghost"
    name := "Ghost"
    doseFamily := "no_such_family"
    responseFamily := "iron_total"
    category := "metabolic"
    mechanism := "n/a" }

theorem unknownIds_safe_witness :
    hasDoseData "no_such_family" ["steps"] = false ∧
    hasResponseData "no_such_family" ["steps"] = false ∧
    (mechEntry [] ghostMech).testable = false :=
  ⟨unknownIds_safe.1 "no_such_family" ["steps"] (by decide),
   unknownIds_safe.2.1 "no_such_family" ["steps"] (by decide),
   unknownIds_safe.2.2.1 _ [] (Or.inl (by decide))⟩

-- ── C3: newly unlocked mechanism count ───────────────────────────

theorem mechIds_nodup : (MECHANISM_CATALOG.map (fun m => m.id)).Nodup := by decide

theorem currentTestableIds_elem {cols : List String} {m : MechanismDef}
    (hm : m ∈ MECHANISM_CATALOG) :
    (currentTestableIds cols).elem m.id = mechTestable cols m := by
  by_cases h : (currentTestableIds cols).elem m.id = true
  · have hmem := elem_eq_true_iff.1 h
    unfold currentTestableIds at hmem
    obtain ⟨m', hm', hid⟩ := List.mem_map.1 hmem
    rw [List.mem_filter] at hm'
    have heq : m' = m := List.inj_on_of_nodup_map mechIds_nodup hm'.1 hm hid
    have ht : mechTestable cols m = true := heq ▸ hm'.2
    rw [h, ht]
  · have hf : (currentTestableIds cols).elem m.id = false := by simpa using h
    have hmf : mechTestable cols m = false := by
      by_contra hc
      have htrue : mechTestable cols m = true := by simpa using hc
      have hin : m.id ∈ currentTestableIds cols :=
        List.mem_map.2 ⟨m, List.mem_filter.2 ⟨hm, htrue⟩, rfl⟩
      have htt : List.elem m.id (currentTestableIds cols) = true := elem_eq_true_iff.2 hin
      rw [htt] at hf
      cases hf
    rw [hf, hmf]

/-- C3: `newEdgesUnlocked` counts exactly the catalog mechanisms that are
testable under the augmented column set but not under the current one, the
augmented set being the union of the available columns, the candidate's
`newColumns`, and the columns of every listed dose/response family that
exists in the catalog. -/
theorem computeMarginalValue_newEdges (c : CandidateDataSource)
    (cols : List String) (es : List EdgeResult) :
    (∀ x, x ∈ augmentedColumnsOf c cols ↔
      x ∈ cols ∨ x ∈ c.newColumns ∨
      (∃ fid ∈ c.newDoseFamilies,
        ∃ fam, lookupRecord DOSE_FAMILIES fid = some fam ∧ x ∈ fam.columns) ∨
      (∃ fid ∈ c.newResponseFamilies,
        ∃ fam, lookupRecord RESPONSE_FAMILIES fid = some fam ∧ x ∈ fam.columns)) ∧
    (computeMarginalValue c cols es).newEdgesUnlocked =
      (MECHANISM_CATALOG.filter (fun m =>
        mechTestable (augmentedColumnsOf c cols) m && !(mechTestable cols m))).length := by
  refine ⟨fun x => mem_augmentedColumnsOf, ?_⟩
  have h1 : (computeMarginalValue c cols es).newEdgesUnlocked
      = (newlyUnlockedOf cols (augmentedColumnsOf c cols)).length := rfl
  have h2 : newlyUnlockedOf cols (augmentedColumnsOf c cols)
      = MECHANISM_CATALOG.filter (fun m =>
          mechTestable (augmentedColumnsOf c cols) m && !(mechTestable cols m)) := by
    unfold newlyUnlockedOf
    rw [List.filter_filter]
    exact List.filter_congr (fun m hm => by rw [currentTestableIds_elem hm, Bool.and_comm])
  rw [h1, h2]

-- ── C5: resolved latent confounders ──────────────────────────────

theorem latents_nodup : LATENT_NODES.Nodup := by decide

theorem mem_pushIfAbsent {l : List String} {x y : String} :
    y ∈ pushIfAbsent l x ↔ y ∈ l ∨ y = x := by
  unfold pushIfAbsent
  split
  · rename_i h
    have hx : x ∈ l := elem_eq_true_iff.1 h
    constructor
    · exact fun hy => Or.inl hy
    · rintro (hy | rfl)
      · exact hy
      · exact hx
  · simp [List.mem_append]

theorem nodup_pushIfAbsent {l : List String} {x : String} (h : l.Nodup) :
    (pushIfAbsent l x).Nodup := by
  unfold pushIfAbsent
  split
  · exact h
  · rename_i hx
    have hnx : x ∉ l := fun hmem => hx (elem_eq_true_iff.2 hmem)
    simp [List.nodup_append, h, hnx]

/-- The three hardcoded per-candidate special cases of the confounder pass. -/
def specialResolved (cid latent : String) : Prop :=
  (cid = "body_temperature" ∧ latent = "core_temperature") ∨
  (cid = "mood_stress" ∧ latent = "energy_expenditure") ∨
  (cid = "genetic_data" ∧ (latent = "insulin_sensitivity" ∨ latent = "lipoprotein_lipase"))

theorem mem_resolvedLatentNodesOf {c : CandidateDataSource} {l : String} :
    l ∈ resolvedLatentNodesOf c ↔
      (l ∈ LATENT_NODES ∧ resolvesLatent c l = true) ∨ specialResolved c.id l := by
  by_cases h1 : c.id = "body_temperature" <;>
    by_cases h2 : c.id = "mood_stress" <;>
      by_cases h3 : c.id = "genetic_data"
  all_goals try (rw [h1] at h2; exact absurd h2 (by decide))
  all_goals try (rw [h1] at h3; exact absurd h3 (by decide))
  all_goals try (rw [h2] at h3; exact absurd h3 (by decide))
  all_goals (
    simp [resolvedLatentNodesOf, specialResolved, h1, h2, h3,
      mem_pushIfAbsent, List.mem_filter]
    try tauto)

theorem nodup_resolvedLatentNodesOf (c : CandidateDataSource) :
    (resolvedLatentNodesOf c).Nodup := by
  have hbase : (LATENT_NODES.filter (resolvesLatent c)).Nodup :=
    latents_nodup.filter _
  unfold resolvedLatentNodesOf
  split_ifs <;> (repeat apply nodup_pushIfAbsent) <;> exact hbase

/-- C5: a latent node is in `resolvedLatentNodes` exactly when some new
column of the candidate matches it under the substring heuristic, or the
candidate's id triggers one of the three hardcoded special cases; the list
has no duplicates and `confoundersResolved` is its length. -/
theorem computeMarginalValue_confounders (c : CandidateDataSource)
    (cols : List String) (es : List EdgeResult) :
    (∀ l, l ∈ (computeMarginalValue c cols es).resolvedLatentNodes ↔
      ((l ∈ LATENT_NODES ∧ resolvesLatent c l = true) ∨ specialResolved c.id l)) ∧
    (computeMarginalValue c cols es).resolvedLatentNodes.Nodup ∧
    (computeMarginalValue c cols es).confoundersResolved =
      (computeMarginalValue c cols es).resolvedLatentNodes.length :=
  ⟨fun _ => mem_resolvedLatentNodesOf, nodup_resolvedLatentNodesOf c, rfl⟩

-- ── C6: signal boost special cases ───────────────────────────────

/-- C6: a candidate whose id is none of the eight hardcoded ones gets no
boosted edges and zero signal-boost points, whatever the edge results; the
`monthly_labs` candidate boosts exactly the edges with `eff_n < 20`. -/
theorem computeMarginalValue_signalBoost (c : CandidateDataSource)
    (cols : List String) (es : List EdgeResult) :
    (c.id ∉ ["monthly_labs", "dedicated_hrv", "cgm", "nutrition", "blood_pressure",
        "mood_stress", "respiratory_rate", "body_temperature"] →
      (computeMarginalValue c cols es).boostedEdgeTitles = [] ∧
      (computeMarginalValue c cols es).signalBoostEdges = 0 ∧
      (computeMarginalValue c cols es).signalBoostPoints = 0) ∧
    (c.id = "monthly_labs" →
      (computeMarginalValue c cols es).boostedEdgeTitles =
        (es.filter (fun e => decide (e.eff_n < 20))).map (fun e => e.title)) := by
  have hb : (computeMarginalValue c cols es).boostedEdgeTitles
      = boostedEdgeTitlesOf c es := rfl
  have he : (computeMarginalValue c cols es).signalBoostEdges
      = (boostedEdgeTitlesOf c es).length := rfl
  have hp : (computeMarginalValue c cols es).signalBoostPoints
      = min 30 ((boostedEdgeTitlesOf c es).length * 5) := rfl
  constructor
  · intro hid
    simp only [List.mem_cons, List.not_mem_nil, or_false, not_or] at hid
    obtain ⟨n1, n2, n3, n4, n5, n6, n7, n8⟩ := hid
    have hempty : boostedEdgeTitlesOf c es = [] := by
      unfold boostedEdgeTitlesOf
      simp [n1, n2, n3, n4, n5, n6, n7, n8]
    rw [hb, he, hp, hempty]
    simp
  · intro hid
    rw [hb]
    unfold boostedEdgeTitlesOf
    simp [hid]

/-- A candidate with none of the special-cased ids, for witnesses. -/
def plainCandidate : CandidateDataSource :=
  { id := "smart_scale"
    name := "Smart Scale"
    category := "Wearable"
    newDoseFamilies := []
    newResponseFamilies := []
    newColumns := ["body_mass_kg"] }

/-- A candidate with the `monthly_labs` id, for witnesses. -/
def monthlyLabsCandidate : CandidateDataSource :=
  { id := "monthly_labs"
    name := "Monthly Labs"
    category := "Biomarkers"
    newDoseFamilies := []
    newResponseFamilies := []
    newColumns := [] }

/-- A fitted edge with a small effective sample size, for witnesses. -/
def lowNEdge : EdgeResult :=
  { title := "Running Volume -> Ferritin"
    source := "daily_run_km"
    target := "ferritin_smoothed"
    eff_n := 12
    personal_pct := 40 }

/-- Witness for C6 at concrete candidates and one low-`eff_n` edge. -/
theorem computeMarginalValue_signalBoost_witness :
    (computeMarginalValue plainCandidate [] [lowNEdge]).boostedEdgeTitles = [] ∧
    (computeMarginalValue monthlyLabsCandidate [] [lowNEdge]).boostedEdgeTitles
      = ["Running Volume -> Ferritin"] := by
  constructor
  · exact ((computeMarginalValue_signalBoost plainCandidate [] [lowNEdge]).1 (by decide)).1
  · have h := (computeMarginalValue_signalBoost monthlyLabsCandidate [] [lowNEdge]).2 rfl
    rw [h]
    rfl

-- ── C4: ranking ──────────────────────────────────────────────────

/-- C4: `rankCandidates` returns one scored entry per candidate (the result
is a permutation of the candidate list mapped to its score) and the result
is sorted by composite score, non-increasing. -/
theorem rankCandidates_spec (cols : List String) (es : List EdgeResult) :
    List.Perm (rankCandidates cols es)
      (CANDIDATE_DATA_SOURCES.map (fun c =>
        { candidate := c, score := computeMarginalValue c cols es : RankedCandidate })) ∧
    List.Sorted rankedLE (rankCandidates cols es) ∧
    (rankCandidates cols es).length = CANDIDATE_DATA_SOURCES.length := by
  refine ⟨List.perm_insertionSort _ _, List.sorted_insertionSort _ _, ?_⟩
  rw [show rankCandidates cols es = List.insertionSort rankedLE
      (CANDIDATE_DATA_SOURCES.map (fun c =>
        { candidate := c, score := computeMarginalValue c cols es : RankedCandidate })) from rfl,
    (List.perm_insertionSort rankedLE _).length_eq, List.length_map]

-- ── C7: no mutation of the caller's set ──────────────────────────

theorem heapGet_set_ne {h : Heap} {r r' : Nat} {v : List String} (hne : r' ≠ r) :
    heapGet (h.set r v) r' = heapGet h r' := by
  simp [heapGet, List.getD, List.getElem?_set_ne (Ne.symm hne)]

theorem heapGet_set_self {h : Heap} {r : Nat} {v : List String} (hr : r < h.length) :
    heapGet (h.set r v) r = v := by
  simp [heapGet, List.getD, List.getElem?_set_self, hr]

theorem heapGet_append_lt {h : Heap} {v : List String} {r : Nat} (hr : r < h.length) :
    heapGet (h ++ [v]) r = heapGet h r := by
  simp [heapGet, List.getD, List.getElem?_append_left hr]

theorem heapGet_append_self {h : Heap} {v : List String} :
    heapGet (h ++ [v]) h.length = v := by
  simp [heapGet, List.getD, List.getElem?_append_right (Nat.le_refl h.length)]

theorem length_foldl_heapAddCol (l : List String) (h : Heap) (r : Nat) :
    (l.foldl (heapAddCol r) h).length = h.length := by
  induction l generalizing h with
  | nil => rfl
  | cons a t ih =>
    rw [List.foldl_cons, ih]
    simp [heapAddCol]

theorem foldl_heapAddCol_get_ne (l : List String) {h : Heap} {r r' : Nat} (hne : r' ≠ r) :
    heapGet (l.foldl (heapAddCol r) h) r' = heapGet h r' := by
  induction l generalizing h with
  | nil => rfl
  | cons a t ih =>
    rw [List.foldl_cons, ih]
    exact heapGet_set_ne hne

theorem foldl_heapAddCol_get_eq (l : List String) {h : Heap} {r : Nat} (hr : r < h.length) :
    heapGet (l.foldl (heapAddCol r) h) r = l.foldl addCol (heapGet h r) := by
  induction l generalizing h with
  | nil => rfl
  | cons a t ih =>
    rw [List.foldl_cons, List.foldl_cons]
    have hr' : r < (heapAddCol r h a).length := by
      simpa [heapAddCol] using hr
    rw [ih hr']
    congr 1
    exact heapGet_set_self hr

theorem famFold_length (colsOf : String → List String) (fams : List String)
    (h : Heap) (r : Nat) :
    (fams.foldl (fun hh fid => (colsOf fid).foldl (heapAddCol r) hh) h).length
      = h.length := by
  induction fams generalizing h with
  | nil => rfl
  | cons a t ih =>
    rw [List.foldl_cons, ih, length_foldl_heapAddCol]

theorem famFold_get_ne (colsOf : String → List String) (fams : List String)
    {h : Heap} {r r' : Nat} (hne : r' ≠ r) :
    heapGet (fams.foldl (fun hh fid => (colsOf fid).foldl (heapAddCol r) hh) h) r'
      = heapGet h r' := by
  induction fams generalizing h with
  | nil => rfl
  | cons a t ih =>
    rw [List.foldl_cons, ih]
    exact foldl_heapAddCol_get_ne _ hne

theorem famFold_get_eq (colsOf : String → List String) (fams : List String)
    {h : Heap} {r : Nat} (hr : r < h.length) :
    heapGet (fams.foldl (fun hh fid => (colsOf fid).foldl (heapAddCol r) hh) h) r
      = fams.foldl (fun s fid => (colsOf fid).foldl addCol s) (heapGet h r) := by
  induction fams generalizing h with
  | nil => rfl
  | cons a t ih =>
    rw [List.foldl_cons, List.foldl_cons]
    have hr' : r < ((colsOf a).foldl (heapAddCol r) h).length := by
      rw [length_foldl_heapAddCol]
      exact hr
    rw [ih hr', foldl_heapAddCol_get_eq _ hr]

/-- C7: the engine never mutates the caller's set.  With reference
semantics, `computeMarginalValue` leaves the `availableColumns` cell exactly
as it was (every `add` hits the fresh copy made by `new Set(...)`), while
returning the same score as the pure function; `getCurrentlyTestableEdges`
only reads, leaving the whole heap unchanged.  Candidate and edge-result
arguments are immutable values of the embedding. -/
theorem computeMarginalValue_frame (c : CandidateDataSource) (h : Heap)
    (availRef : Nat) (es : List EdgeResult) (hlt : availRef < h.length) :
    heapGet (computeMarginalValueHeap c h availRef es).2 availRef = heapGet h availRef ∧
    (computeMarginalValueHeap c h availRef es).1
      = computeMarginalValue c (heapGet h availRef) es ∧
    (getCurrentlyTestableEdgesHeap h availRef).2 = h ∧
    (getCurrentlyTestableEdgesHeap h availRef).1
      = getCurrentlyTestableEdges (heapGet h availRef) := by
  have hne : availRef ≠ h.length := Nat.ne_of_lt hlt
  have hr1 : h.length < (h ++ [heapGet h availRef]).length := by
    simp
  have hr2 : h.length <
      (c.newColumns.foldl (heapAddCol h.length) (h ++ [heapGet h availRef])).length := by
    rw [length_foldl_heapAddCol]
    exact hr1
  have hr3 : h.length <
      (c.newDoseFamilies.foldl
        (fun hh dfId => (doseFamilyColumns dfId).foldl (heapAddCol h.length) hh)
        (c.newColumns.foldl (heapAddCol h.length) (h ++ [heapGet h availRef]))).length := by
    rw [famFold_length]
    exact hr2
  have hframe : heapGet (computeMarginalValueHeap c h availRef es).2 availRef
      = heapGet h availRef := by
    simp only [computeMarginalValueHeap]
    rw [famFold_get_ne _ _ hne, famFold_get_ne _ _ hne,
      foldl_heapAddCol_get_ne _ hne, heapGet_append_lt hlt]
  have haug : heapGet (computeMarginalValueHeap c h availRef es).2 h.length
      = augmentedColumnsOf c (heapGet h availRef) := by
    simp only [computeMarginalValueHeap]
    rw [famFold_get_eq _ _ hr3, famFold_get_eq _ _ hr2,
      foldl_heapAddCol_get_eq _ hr1, heapGet_append_self]
    rfl
  refine ⟨hframe, ?_, rfl, rfl⟩
  have h1 : (computeMarginalValueHeap c h availRef es).1
      = scoreFromSets c (heapGet (computeMarginalValueHeap c h availRef es).2 availRef)
          (heapGet (computeMarginalValueHeap c h availRef es).2 h.length) es := rfl
  rw [h1, hframe, haug]
  rfl

/-- Witness for C7: a one-cell heap is unchanged by scoring a candidate
whose `newColumns` are added to the simulated copy. -/
theorem computeMarginalValue_frame_witness :
    heapGet (computeMarginalValueHeap plainCandidate [["steps"]] 0 []).2 0
      = ["steps"] :=
  (computeMarginalValue_frame plainCandidate [["steps"]] 0 [] (by decide)).1
